import Mathlib

/-!
Formal model of the DAdmin browser scripts (src/script.js, src/unnamed/part_000,
src/unnamed/part_001): the tab-scoped session store, the generic `fetchApi`
helper, the `protectRoute` guard, the login form handler and the admin
dashboard gate, together with proofs about their behaviour.

JSON values are modelled by the mutual inductive `JVal`; serialization
(`JSON.stringify`) and parsing (`JSON.parse`) are implemented as executable
functions.  JSON numbers are IEEE doubles in JavaScript; the value model
keeps integer numerals exactly (as `Int`) and produces no value for
fractional or exponent numerals, whose double semantics is out of scope.
The separate recognizer `jsonTextValid` accepts the full JSON grammar
including those numerals, and the value parser is proved sound for it
(`parseJson_sound`), so every theorem that asserts a JSON.parse failure is
hypothesised on `jsonTextValid` being false — an input the real JSON.parse
throws on — and every theorem about a parsed value is hypothesised on the
value parser succeeding.  Property reads off a parsed value go through
`jsGetProp`, which models the TypeError thrown by reading a property off
null.
-/

-- JSON values as produced by JSON.parse.  Arrays and objects use the
-- dedicated mutual list types `JArr` and `JObj` so that all recursions over
-- values are structural.
mutual

/-- JSON values as produced by JSON.parse. -/
inductive JVal where
  | null : JVal
  | bool (b : Bool) : JVal
  | num (n : Int) : JVal
  | str (s : String) : JVal
  | arr (elems : JArr) : JVal
  | obj (fields : JObj) : JVal
deriving DecidableEq, Repr

inductive JArr where
  | nil : JArr
  | cons (hd : JVal) (tl : JArr) : JArr
deriving DecidableEq, Repr

inductive JObj where
  | nil : JObj
  | cons (key : String) (val : JVal) (tl : JObj) : JObj
deriving DecidableEq, Repr

end

/-- JavaScript truthiness of a value (`if (v)`), for values that can result
from JSON.parse: null, false, 0 and the empty string are falsy; every array
and object is truthy. -/
def jsTruthy : JVal → Bool
  | .null => false
  | .bool b => b
  | .num n => n != 0
  | .str s => s != ""
  | .arr _ => true
  | .obj _ => true

/-- Truthiness of a possibly-undefined value (`Option JVal`, where `none`
models JavaScript `undefined`, which is falsy). -/
def jsTruthyOpt : Option JVal → Bool
  | none => false
  | some v => jsTruthy v

/-- Property lookup on a JSON object: later entries shadow earlier ones, as
in a JavaScript object literal with duplicate keys. -/
def jObjField : JObj → String → Option JVal
  | .nil, _ => none
  | .cons k v tl, key =>
    match jObjField tl key with
    | some r => some r
    | none => if k = key then some v else none

/-- Property access `v.key`: `undefined` (`none`) unless `v` is an object
with that field. -/
def jsField : JVal → String → Option JVal
  | .obj fs, key => jObjField fs key
  | _, _ => none

-- JavaScript string coercion of JSON values and arrays.
mutual

/-- String coercion `String(v)` of a JSON value (used when a non-string
value is passed to the `Error` constructor). -/
def jsToString : JVal → String
  | .null => "null"
  | .bool b => if b then "true" else "false"
  | .num n => toString n
  | .str s => s
  | .arr es => jsArrToString es
  | .obj _ => "[object Object]"

/-- String coercion of an array: elements joined by commas, with null
rendered as the empty string (Array.prototype.toString). -/
def jsArrToString : JArr → String
  | .nil => ""
  | .cons v tl =>
    (match v with
     | .null => ""
     | .bool b => if b then "true" else "false"
     | .num n => toString n
     | .str s => s
     | .arr es2 => jsArrToString es2
     | .obj _ => "[object Object]") ++
    (match tl with
     | .nil => ""
     | .cons _ _ => "," ++ jsArrToString tl)

end

/-- One hexadecimal digit (lowercase), for stringify's control-character
escapes. -/
def hexDigit (n : Nat) : Char :=
  if n < 10 then Char.ofNat (48 + n) else Char.ofNat (87 + n)

/-- Numeric value of a hexadecimal digit character, if any. -/
def hexVal (c : Char) : Option Nat :=
  if 48 ≤ c.toNat ∧ c.toNat ≤ 57 then some (c.toNat - 48)
  else if 97 ≤ c.toNat ∧ c.toNat ≤ 102 then some (c.toNat - 87)
  else if 65 ≤ c.toNat ∧ c.toNat ≤ 70 then some (c.toNat - 55)
  else none

/-- JSON.stringify's escaping of a single string character. -/
def escapeChar (c : Char) : List Char :=
  if c = '"' then ['\\', '"']
  else if c = '\\' then ['\\', '\\']
  else if c = Char.ofNat 8 then ['\\', 'b']
  else if c = '\t' then ['\\', 't']
  else if c = '\n' then ['\\', 'n']
  else if c = Char.ofNat 12 then ['\\', 'f']
  else if c = '\r' then ['\\', 'r']
  else if c.toNat < 32 then
    ['\\', 'u', '0', '0', hexDigit (c.toNat / 16), hexDigit (c.toNat % 16)]
  else [c]

/-- Escaping of a whole string body. -/
def escapeList : List Char → List Char
  | [] => []
  | c :: cs => escapeChar c ++ escapeList cs

-- JSON.stringify, as a character list (no whitespace, as in JavaScript).
mutual

/-- JSON.stringify of a value, as a character list. -/
def stringifyChars : JVal → List Char
  | .null => ['n', 'u', 'l', 'l']
  | .bool b => if b then ['t', 'r', 'u', 'e'] else ['f', 'a', 'l', 's', 'e']
  | .num n => (toString n).toList
  | .str s => '"' :: (escapeList s.toList ++ ['"'])
  | .arr es => '[' :: (stringifyElems es ++ [']'])
  | .obj fs => '{' :: (stringifyFields fs ++ ['}'])

/-- Stringify of comma-separated array elements. -/
def stringifyElems : JArr → List Char
  | .nil => []
  | .cons v tl =>
    stringifyChars v ++
    (match tl with
     | .nil => []
     | .cons _ _ => ',' :: stringifyElems tl)

/-- Stringify of comma-separated object members. -/
def stringifyFields : JObj → List Char
  | .nil => []
  | .cons k v tl =>
    ('"' :: (escapeList k.toList ++ ['"'])) ++ ':' :: stringifyChars v ++
    (match tl with
     | .nil => []
     | .cons _ _ _ => ',' :: stringifyFields tl)

end

/-- JSON.stringify of a value, as a string. -/
def stringifyJson (v : JVal) : String :=
  String.mk (stringifyChars v)

/-- Inverse of the short escapes accepted after a backslash in a JSON string
literal. -/
def unescapeChar : Char → Option Char
  | '"' => some '"'
  | '\\' => some '\\'
  | '/' => some '/'
  | 'b' => some (Char.ofNat 8)
  | 'f' => some (Char.ofNat 12)
  | 'n' => some '\n'
  | 'r' => some '\r'
  | 't' => some '\t'
  | _ => none

/-- Parse the body of a JSON string literal (after the opening quote) up to
and including the closing quote; returns the decoded characters and the
remaining input.  Raw control characters are rejected, as in JSON.  A \u
escape denoting a lone surrogate is accepted, as in JSON; its code unit is
not a Unicode scalar and `Char.ofNat` maps it to the null character, a
representation choice no theorem below depends on. -/
def parseStrBody : List Char → Option (List Char × List Char)
  | [] => none
  | c :: cs =>
    if c = '"' then some ([], cs)
    else if c = '\\' then
      match cs with
      | [] => none
      | e :: cs2 =>
        if e = 'u' then
          match cs2 with
          | h1 :: h2 :: h3 :: h4 :: cs3 =>
            match hexVal h1, hexVal h2, hexVal h3, hexVal h4 with
            | some a, some b, some c2, some d =>
              match parseStrBody cs3 with
              | some (s, r) => some (Char.ofNat (((a * 16 + b) * 16 + c2) * 16 + d) :: s, r)
              | none => none
            | _, _, _, _ => none
          | _ => none
        else
          match unescapeChar e with
          | some u =>
            match parseStrBody cs2 with
            | some (s, r) => some (u :: s, r)
            | none => none
          | none => none
    else if c.toNat < 32 then none
    else
      match parseStrBody cs with
      | some (s, r) => some (c :: s, r)
      | none => none

/-- Skip JSON whitespace. -/
def skipWs : List Char → List Char
  | [] => []
  | c :: cs =>
    if c = ' ' ∨ c = '\t' ∨ c = '\n' ∨ c = '\r' then skipWs cs else c :: cs

/-- Match a literal character sequence, returning the remaining input. -/
def stripLit : List Char → List Char → Option (List Char)
  | [], cs => some cs
  | _ :: _, [] => none
  | p :: ps, c :: cs => if p = c then stripLit ps cs else none

/-- Decimal digit test. -/
def isDigitCh (c : Char) : Bool :=
  48 ≤ c.toNat && c.toNat ≤ 57

/-- Consume a run of decimal digits, accumulating their value. -/
def takeDigits : List Char → Nat → Nat × List Char
  | [], acc => (acc, [])
  | c :: cs, acc =>
    if isDigitCh c then takeDigits cs (acc * 10 + (c.toNat - 48)) else (acc, c :: cs)

/-- Head test for a character list. -/
def headIs (ch : Char) : List Char → Bool
  | [] => false
  | c :: _ => c = ch

/-- Whether a character list starts with a decimal digit. -/
def headDigit : List Char → Bool
  | [] => false
  | c :: _ => isDigitCh c

/-- Whether a digit run is followed by neither a fraction nor an exponent
marker, so the numeral is a plain integer one. -/
def numTailInt : List Char → Bool
  | [] => true
  | c :: _ => !(c = '.' || c = 'e' || c = 'E')

/-- Parse a JSON integer numeral.  A numeral continuing with a fraction or
exponent part makes this value-level parse fail rather than misparse; the
full-grammar recognizer `validNum` below accepts those numerals.  Leading
zeros are rejected as in JSON. -/
def parseNum (cs : List Char) : Option (JVal × List Char) :=
  let neg := headIs '-' cs
  let cs1 := if headIs '-' cs then cs.tail else cs
  match cs1 with
  | [] => none
  | c :: rest =>
    if !isDigitCh c then none
    else if c = '0' && headDigit rest then none
    else
      let (n, r) := takeDigits cs1 0
      if numTailInt r then some (.num (if neg then -(n : Int) else (n : Int)), r)
      else none

/-- Recognize an optional JSON fraction part: "." digit+, or nothing. -/
def validFrac : List Char → Option (List Char)
  | [] => some []
  | c :: rest =>
    if c = '.' then
      if headDigit rest then some (takeDigits rest 0).2 else none
    else some (c :: rest)

/-- Recognize an optional JSON exponent part: (e|E) (+|-)? digit+, or
nothing. -/
def validExp : List Char → Option (List Char)
  | [] => some []
  | c :: rest =>
    if c = 'e' || c = 'E' then
      let rest2 :=
        match rest with
        | s :: t => if s = '+' || s = '-' then t else s :: t
        | [] => []
      if headDigit rest2 then some (takeDigits rest2 0).2 else none
    else some (c :: rest)

/-- Recognize a full JSON numeral: -? int frac? exp?. -/
def validNum (cs : List Char) : Option (List Char) :=
  let cs1 := if headIs '-' cs then cs.tail else cs
  match cs1 with
  | [] => none
  | c :: rest =>
    if !isDigitCh c then none
    else if c = '0' && headDigit rest then none
    else
      match validFrac (takeDigits cs1 0).2 with
      | none => none
      | some r2 => validExp r2

-- Fuel-indexed mutually recursive JSON value parser.
mutual

/-- Parse one JSON value, returning it with the remaining input. -/
def parseVal : Nat → List Char → Option (JVal × List Char)
  | 0, _ => none
  | fuel + 1, cs =>
    match skipWs cs with
    | [] => none
    | c :: rest =>
      if c = 'n' then (stripLit ['u', 'l', 'l'] rest).map (fun r => (.null, r))
      else if c = 't' then (stripLit ['r', 'u', 'e'] rest).map (fun r => (.bool true, r))
      else if c = 'f' then (stripLit ['a', 'l', 's', 'e'] rest).map (fun r => (.bool false, r))
      else if c = '"' then (parseStrBody rest).map (fun p => (.str (String.mk p.1), p.2))
      else if c = '[' then
        if headIs ']' (skipWs rest) then some (.arr .nil, (skipWs rest).tail)
        else (parseElems fuel (skipWs rest)).map (fun p => (.arr p.1, p.2))
      else if c = '{' then
        if headIs '}' (skipWs rest) then some (.obj .nil, (skipWs rest).tail)
        else (parseMembers fuel (skipWs rest)).map (fun p => (.obj p.1, p.2))
      else parseNum (c :: rest)

/-- Parse one or more comma-separated array elements up to the closing
bracket. -/
def parseElems : Nat → List Char → Option (JArr × List Char)
  | 0, _ => none
  | fuel + 1, cs =>
    match parseVal fuel cs with
    | none => none
    | some (v, r) =>
      if headIs ',' (skipWs r) then
        (parseElems fuel (skipWs r).tail).map (fun p => (.cons v p.1, p.2))
      else if headIs ']' (skipWs r) then some (.cons v .nil, (skipWs r).tail)
      else none

/-- Parse one or more comma-separated object members up to the closing
brace. -/
def parseMembers : Nat → List Char → Option (JObj × List Char)
  | 0, _ => none
  | fuel + 1, cs =>
    if headIs '"' (skipWs cs) then
      match parseStrBody (skipWs cs).tail with
      | none => none
      | some (k, r2) =>
        if headIs ':' (skipWs r2) then
          match parseVal fuel (skipWs r2).tail with
          | none => none
          | some (v, r4) =>
            if headIs ',' (skipWs r4) then
              (parseMembers fuel (skipWs r4).tail).map
                (fun p => (.cons (String.mk k) v p.1, p.2))
            else if headIs '}' (skipWs r4) then
              some (.cons (String.mk k) v .nil, (skipWs r4).tail)
            else none
        else none
    else none

end

-- Fuel-indexed recognizer for the full JSON grammar.  It mirrors the value
-- parser branch for branch but builds no values, and accepts fractional and
-- exponent numerals, whose double values are outside the value model; the
-- value parser is proved sound for it below (parseJson_sound), so a text the
-- recognizer rejects is rejected by the value parser as well.
mutual

/-- Recognize one JSON value, returning the remaining input. -/
def validVal : Nat → List Char → Option (List Char)
  | 0, _ => none
  | fuel + 1, cs =>
    match skipWs cs with
    | [] => none
    | c :: rest =>
      if c = 'n' then stripLit ['u', 'l', 'l'] rest
      else if c = 't' then stripLit ['r', 'u', 'e'] rest
      else if c = 'f' then stripLit ['a', 'l', 's', 'e'] rest
      else if c = '"' then (parseStrBody rest).map (fun p => p.2)
      else if c = '[' then
        if headIs ']' (skipWs rest) then some ((skipWs rest).tail)
        else validElems fuel (skipWs rest)
      else if c = '{' then
        if headIs '}' (skipWs rest) then some ((skipWs rest).tail)
        else validMembers fuel (skipWs rest)
      else validNum (c :: rest)

/-- Recognize one or more comma-separated array elements up to the closing
bracket. -/
def validElems : Nat → List Char → Option (List Char)
  | 0, _ => none
  | fuel + 1, cs =>
    match validVal fuel cs with
    | none => none
    | some r =>
      if headIs ',' (skipWs r) then validElems fuel ((skipWs r).tail)
      else if headIs ']' (skipWs r) then some ((skipWs r).tail)
      else none

/-- Recognize one or more comma-separated object members up to the closing
brace. -/
def validMembers : Nat → List Char → Option (List Char)
  | 0, _ => none
  | fuel + 1, cs =>
    if headIs '"' (skipWs cs) then
      match parseStrBody ((skipWs cs).tail) with
      | none => none
      | some (_, r2) =>
        if headIs ':' (skipWs r2) then
          match validVal fuel ((skipWs r2).tail) with
          | none => none
          | some r4 =>
            if headIs ',' (skipWs r4) then validMembers fuel ((skipWs r4).tail)
            else if headIs '}' (skipWs r4) then some ((skipWs r4).tail)
            else none
        else none
    else none

end

/-- JSON.parse on a character list: parse one value and require that only
whitespace remains. -/
def parseJsonChars (cs : List Char) : Option JVal :=
  match parseVal (2 * cs.length + 2) cs with
  | some (v, r) =>
    match skipWs r with
    | [] => some v
    | _ :: _ => none
  | none => none

/-- JSON.parse on a string; `none` models a thrown SyntaxError. -/
def parseJson (s : String) : Option JVal :=
  parseJsonChars s.toList

/-- Whether a string is a valid JSON text under the full grammar, including
the fractional and exponent numerals that the value parser produces no value
for.  A text this recognizer rejects is one the real JSON.parse throws on. -/
def jsonTextValid (s : String) : Bool :=
  match validVal (2 * s.toList.length + 2) s.toList with
  | some r => (skipWs r).isEmpty
  | none => false

/-- The sessionStorage contents: an association list from keys to the raw
stored strings, in insertion order. -/
abbrev Store : Type := List (String × String)

/-- sessionStorage.getItem. -/
def storeGet : Store → String → Option String
  | [], _ => none
  | (k, v) :: st, key => if k = key then some v else storeGet st key

/-- sessionStorage.setItem: overwrite an existing key or append a new one. -/
def storeSet : Store → String → String → Store
  | [], key, val => [(key, val)]
  | (k, v) :: st, key, val =>
    if k = key then (key, val) :: st else (k, v) :: storeSet st key val

-- Session keys, from the top of script.js / part_001.
def SESSION_KEY_AUTH : String := "isAuthenticated"
def SESSION_KEY_TOKEN : String := "accessToken"
def SESSION_KEY_PIN_VERIFIED : String := "isPinVerified"
def SESSION_KEY_USER_DATA : String := "userData"

/-- JavaScript exceptions that the modelled code can throw: `new Error(msg)`,
a fetch-level TypeError, or a JSON.parse SyntaxError. -/
inductive JsError where
  | error (message : String)
  | typeError (message : String)
  | parseError (message : String)
deriving DecidableEq, Repr

/-- The `message` property of an exception. -/
def JsError.message : JsError → String
  | .error m => m
  | .typeError m => m
  | .parseError m => m

/-- The SyntaxError thrown by JSON.parse on invalid input.  Real engines vary
the message text; only its presence matters to the modelled code. -/
def jsonParseError : JsError := .parseError "Unexpected token in JSON"

/-- `setSession(key, value)`: store the JSON-serialized value
(sessionStorage.setItem(key, JSON.stringify(value))). -/
def setSession (st : Store) (key : String) (v : JVal) : Store :=
  storeSet st key (stringifyJson v)

/-- `setSession` applied to a possibly-undefined argument: JSON.stringify of
`undefined` is `undefined`, which setItem coerces to the string
`"undefined"`. -/
def setSessionArg (st : Store) (key : String) : Option JVal → Store
  | some v => setSession st key v
  | none => storeSet st key "undefined"

/-- `getSession(key)`: `value ? JSON.parse(value) : null` on the raw stored
string — null when the key is absent or the stored string is empty (falsy);
otherwise the parse result, with a parse failure modelled as a thrown
SyntaxError. -/
def getSession (st : Store) (key : String) : Except JsError JVal :=
  match storeGet st key with
  | none => .ok JVal.null
  | some s =>
    if s = "" then .ok JVal.null
    else
      match parseJson s with
      | some v => .ok v
      | none => .error jsonParseError

/-- `clearSession()`: sessionStorage.clear(). -/
def clearSession (_st : Store) : Store := []

/-- Whether a pattern is an initial segment of a character list. -/
def listStartsWith : List Char → List Char → Bool
  | [], _ => true
  | _ :: _, [] => false
  | p :: ps, c :: cs => p == c && listStartsWith ps cs

/-- Whether a pattern occurs anywhere in a character list. -/
def listHasSub (pat : List Char) : List Char → Bool
  | [] => listStartsWith pat []
  | c :: cs => listStartsWith pat (c :: cs) || listHasSub pat cs

/-- `s.includes(pat)` on strings. -/
def strIncludes (s pat : String) : Bool :=
  listHasSub pat.toList s.toList

/-- The browser-visible state the scripts mutate: the sessionStorage
contents and the last assignment to `window.location.href`, if any. -/
structure Browser where
  store : Store
  location : Option String
deriving DecidableEq, Repr

/-- An HTTP response as observed by the scripts: status code, statusText and
the raw body text handed to `response.json()`. -/
structure HttpResponse where
  status : Nat
  statusText : String
  body : String
deriving DecidableEq, Repr

/-- Outcome of the `fetch` call itself: a response, or a network-level
failure (rejected promise carrying a TypeError message). -/
abbrev NetResult : Type := Except String HttpResponse

/-- `response.ok`: status in the inclusive range 200..299. -/
def responseOk (resp : HttpResponse) : Bool :=
  200 ≤ resp.status && resp.status ≤ 299

/-- The TypeError thrown by reading a property off null. -/
def typeErrorNullRead (key : String) : JsError :=
  .typeError ("Cannot read properties of null (reading " ++ key ++ ")")

/-- Property access `v.key` as an expression: reading a property off null
throws a TypeError; every other value yields the field (for objects) or
undefined (for primitives, which JavaScript wraps). -/
def jsGetProp (v : JVal) (key : String) : Except JsError (Option JVal) :=
  match v with
  | .null => .error (typeErrorNullRead key)
  | v => .ok (jsField v key)

/-- `det || dflt` coerced to an Error message, where `det` is the value of
an already-evaluated `data.detail`: the detail when it is truthy, the
fallback otherwise (also when detail is undefined). -/
def detailOrElse (det : Option JVal) (dflt : String) : String :=
  match det with
  | some d => if jsTruthy d then jsToString d else dflt
  | none => dflt

/-- Body of script.js fetchApi after a completed fetch: parse the body as
JSON first, then check `response.ok`; a non-ok response evaluates
`data.detail` (a TypeError when data is null) and throws
`new Error(data.detail || "Something went wrong")`.  There is no special
handling of status 401 in this variant.  The catch block only re-throws, so
it is omitted. -/
def fetchCore_script (b : Browser) (net : NetResult) :
    Browser × Except JsError JVal :=
  match net with
  | .error m => (b, .error (.typeError m))
  | .ok resp =>
    match parseJson resp.body with
    | none => (b, .error jsonParseError)
    | some data =>
      if responseOk resp then (b, .ok data)
      else
        match jsGetProp data "detail" with
        | .error e => (b, .error e)
        | .ok det => (b, .error (.error (detailOrElse det "Something went wrong")))

/-- Body of part_001 fetchApi after a completed fetch: a 401 status is
checked before the body is parsed and clears the session, redirects to "/"
and throws; otherwise the body is parsed and a non-ok response evaluates
`data.detail` (a TypeError when data is null) and throws with the detail
(stringified when not a string), falling back to statusText and then to a
generic message. -/
def fetchCore_part001 (b : Browser) (net : NetResult) :
    Browser × Except JsError JVal :=
  match net with
  | .error m => (b, .error (.typeError m))
  | .ok resp =>
    if resp.status = 401 then
      ({ store := clearSession b.store, location := some "/" },
       .error (.error "Session expired or unauthorized."))
    else
      match parseJson resp.body with
      | none => (b, .error jsonParseError)
      | some data =>
        if responseOk resp then (b, .ok data)
        else
          match jsGetProp data "detail" with
          | .error e => (b, .error e)
          | .ok det =>
            let errorMessage :=
              match det with
              | some d =>
                if jsTruthy d then
                  match d with
                  | .str s => s
                  | _ => stringifyJson d
                else resp.statusText
              | none => resp.statusText
            (b, .error (.error (if errorMessage = "" then "Something went wrong" else errorMessage)))

/-- The `requiresAuth` preamble shared by both fetchApi variants: read the
token from the session; if it is falsy, clear the session, redirect to "/"
and throw `new Error("Unauthorized")`; a SyntaxError from getSession
propagates. -/
def fetchAuthPre (b : Browser) (requiresAuth : Bool)
    (core : Browser → NetResult → Browser × Except JsError JVal)
    (net : NetResult) : Browser × Except JsError JVal :=
  if requiresAuth then
    match getSession b.store SESSION_KEY_TOKEN with
    | .error e => (b, .error e)
    | .ok token =>
      if jsTruthy token then core b net
      else ({ store := clearSession b.store, location := some "/" },
            .error (.error "Unauthorized"))
  else core b net

/-- fetchApi of script.js (no 401 handling). -/
def fetchApi_script (b : Browser) (requiresAuth : Bool) (net : NetResult) :
    Browser × Except JsError JVal :=
  fetchAuthPre b requiresAuth fetchCore_script net

/-- fetchApi of part_001 (with the session-expiry check). -/
def fetchApi_part001 (b : Browser) (requiresAuth : Bool) (net : NetResult) :
    Browser × Except JsError JVal :=
  fetchAuthPre b requiresAuth fetchCore_part001 net

/-- protectRoute of script.js / part_001 (the two are identical): reads the
auth and PIN flags, classifies the current path and either stays put or
assigns a redirect; on a protected (dashboard) path with a missing flag it
clears the session and redirects to "/".  A SyntaxError from getSession
propagates. -/
def protectRoute (b : Browser) (currentPath : String) : Except JsError Browser :=
  match getSession b.store SESSION_KEY_AUTH with
  | .error e => .error e
  | .ok isAuthenticated =>
    match getSession b.store SESSION_KEY_PIN_VERIFIED with
    | .error e => .error e
    | .ok isPinVerified =>
      if currentPath = "/" || strIncludes currentPath "index.html" then
        if jsTruthy isAuthenticated then
          if jsTruthy isPinVerified then .ok { b with location := some "/dashboard/" }
          else .ok { b with location := some "/pin/" }
        else .ok b
      else if strIncludes currentPath "/pin/" then
        if !jsTruthy isAuthenticated then .ok { b with location := some "/" }
        else if jsTruthy isPinVerified then .ok { b with location := some "/dashboard/" }
        else .ok b
      else if strIncludes currentPath "/dashboard/" then
        if !jsTruthy isAuthenticated || !jsTruthy isPinVerified then
          .ok { store := clearSession b.store, location := some "/" }
        else .ok b
      else .ok b

/-- The login error message element: its text and whether the "hidden" CSS
class is present. -/
structure LoginView where
  errorText : String
  errorHidden : Bool
deriving DecidableEq, Repr

/-- `error.message || fallbackMsg`. -/
def messageOrElse (e : JsError) (fallbackMsg : String) : String :=
  if e.message = "" then fallbackMsg else e.message

/-- The submit listener installed by handleLoginForm of script.js, from the
point where the login fetch settles: on success store `isAuthenticated`,
the access token and the user payload, hide the error element and redirect
to "/pin/"; on failure show `error.message` (or a generic fallback) without
touching the session.  The success statements run in source order inside
the try block, so a TypeError from `data.access_token` (a null payload)
lands in the same catch branch after isAuthenticated was already written. -/
def handleLoginSubmit (b : Browser) (view : LoginView) (net : NetResult) :
    Browser × LoginView :=
  match fetchApi_script b false net with
  | (b2, .ok data) =>
    let st1 := setSession b2.store SESSION_KEY_AUTH (.bool true)
    match jsGetProp data "access_token" with
    | .error e =>
      (⟨st1, b2.location⟩,
       { errorText := messageOrElse e "Login failed. Please try again.",
         errorHidden := false })
    | .ok tokenField =>
      let st2 := setSessionArg st1 SESSION_KEY_TOKEN tokenField
      match jsGetProp data "user" with
      | .error e =>
        (⟨st2, b2.location⟩,
         { errorText := messageOrElse e "Login failed. Please try again.",
           errorHidden := false })
      | .ok userField =>
        let st3 := setSessionArg st2 SESSION_KEY_USER_DATA userField
        ({ store := st3, location := some "/pin/" },
         { errorText := view.errorText, errorHidden := true })
  | (b2, .error e) =>
    (b2, { errorText := messageOrElse e "Login failed. Please try again.",
           errorHidden := false })

/-- The submit listener installed by handlePinForm of script.js, from the
point where the verify-pin fetch settles: on success set `isPinVerified`
and redirect to "/dashboard/"; on failure show the error message. -/
def handlePinSubmit (b : Browser) (view : LoginView) (net : NetResult) :
    Browser × LoginView :=
  match fetchApi_script b true net with
  | (b2, .ok _) =>
    ({ store := setSession b2.store SESSION_KEY_PIN_VERIFIED (.bool true),
       location := some "/dashboard/" },
     { errorText := view.errorText, errorHidden := true })
  | (b2, .error e) =>
    (b2, { errorText := messageOrElse e "PIN verification failed. Please try again.",
           errorHidden := false })

/-- The admin gate at the top of part_000's DOMContentLoaded handler:
`window.getSession()` is called with no argument, so the missing key is
`undefined` and sessionStorage.getItem coerces it to the string key
`"undefined"`; the result is then required to be truthy with a truthy
`currentUser` field whose `is_admin` field is truthy, otherwise the page
redirects to "/login.html".  Each nested `if` below is one short-circuited
disjunct of `!session || !session.currentUser ||
!session.currentUser.is_admin`, so the property reads happen only when the
earlier disjuncts were false (session truthy, hence non-null; currentUser
truthy, hence defined and non-null). -/
def adminGate (b : Browser) : Except JsError Browser :=
  match getSession b.store "undefined" with
  | .error e => .error e
  | .ok session =>
    if !jsTruthy session then .ok { b with location := some "/login.html" }
    else
      match jsGetProp session "currentUser" with
      | .error e => .error e
      | .ok currentUser =>
        if !jsTruthyOpt currentUser then .ok { b with location := some "/login.html" }
        else
          match currentUser with
          | some cu =>
            match jsGetProp cu "is_admin" with
            | .error e => .error e
            | .ok adminFlag =>
              if !jsTruthyOpt adminFlag then .ok { b with location := some "/login.html" }
              else .ok b
          | none => .ok { b with location := some "/login.html" }

instance exceptDecEq {ε α : Type} [DecidableEq ε] [DecidableEq α] :
    DecidableEq (Except ε α) := fun a b =>
  match a, b with
  | .error e, .error f =>
    match decEq e f with
    | isTrue h => isTrue (congrArg Except.error h)
    | isFalse h => isFalse (fun hh => h (Except.error.inj hh))
  | .ok x, .ok y =>
    match decEq x y with
    | isTrue h => isTrue (congrArg Except.ok h)
    | isFalse h => isFalse (fun hh => h (Except.ok.inj hh))
  | .error _, .ok _ => isFalse (fun hh => Except.noConfusion hh)
  | .ok _, .error _ => isFalse (fun hh => Except.noConfusion hh)

theorem string_mk_toList (s : String) : String.mk s.toList = s := rfl

theorem hexVal_hexDigit (m : Nat) (h : m < 16) : hexVal (hexDigit m) = some m := by
  interval_cases m <;> decide

/-- Parsing inverts JSON.stringify's string-body escaping. -/
theorem parseStrBody_escape (cs rest : List Char) :
    parseStrBody (escapeList cs ++ '"' :: rest) = some (cs, rest) := by
  induction cs with
  | nil =>
    show parseStrBody ('"' :: rest) = some ([], rest)
    rw [parseStrBody.eq_def]
    simp
  | cons c cs ih =>
    show parseStrBody ((escapeChar c ++ escapeList cs) ++ '"' :: rest) = _
    rw [List.append_assoc]
    by_cases h1 : c = '"'
    · subst h1
      show parseStrBody ('\\' :: '"' :: (escapeList cs ++ '"' :: rest)) = _
      rw [parseStrBody.eq_def]
      simp [unescapeChar, ih]
    · by_cases h2 : c = '\\'
      · subst h2
        show parseStrBody ('\\' :: '\\' :: (escapeList cs ++ '"' :: rest)) = _
        rw [parseStrBody.eq_def]
        simp [unescapeChar, ih]
      · by_cases h3 : c = Char.ofNat 8
        · subst h3
          show parseStrBody ('\\' :: 'b' :: (escapeList cs ++ '"' :: rest)) = _
          rw [parseStrBody.eq_def]
          simp [unescapeChar, ih]
        · by_cases h4 : c = '\t'
          · subst h4
            show parseStrBody ('\\' :: 't' :: (escapeList cs ++ '"' :: rest)) = _
            rw [parseStrBody.eq_def]
            simp [unescapeChar, ih]
          · by_cases h5 : c = '\n'
            · subst h5
              show parseStrBody ('\\' :: 'n' :: (escapeList cs ++ '"' :: rest)) = _
              rw [parseStrBody.eq_def]
              simp [unescapeChar, ih]
            · by_cases h6 : c = Char.ofNat 12
              · subst h6
                show parseStrBody ('\\' :: 'f' :: (escapeList cs ++ '"' :: rest)) = _
                rw [parseStrBody.eq_def]
                simp [unescapeChar, ih]
              · by_cases h7 : c = '\r'
                · subst h7
                  show parseStrBody ('\\' :: 'r' :: (escapeList cs ++ '"' :: rest)) = _
                  rw [parseStrBody.eq_def]
                  simp [unescapeChar, ih]
                · by_cases h8 : c.toNat < 32
                  · have hq : hexVal (hexDigit (c.toNat / 16)) = some (c.toNat / 16) :=
                      hexVal_hexDigit _ (by omega)
                    have hr : hexVal (hexDigit (c.toNat % 16)) = some (c.toNat % 16) :=
                      hexVal_hexDigit _ (by omega)
                    have h0 : hexVal '0' = some 0 := rfl
                    have hesc : escapeChar c =
                        ['\\', 'u', '0', '0', hexDigit (c.toNat / 16), hexDigit (c.toNat % 16)] := by
                      simp [escapeChar, h1, h2, h3, h4, h5, h6, h7, h8]
                    show parseStrBody (escapeChar c ++ (escapeList cs ++ '"' :: rest)) = _
                    rw [hesc]
                    rw [parseStrBody.eq_def]
                    simp [h0, hq, hr, ih]
                    have harith : c.toNat / 16 * 16 + c.toNat % 16 = c.toNat := by omega
                    rw [harith, Char.ofNat_toNat]
                  · have hesc : escapeChar c = [c] := by
                      simp [escapeChar, h1, h2, h3, h4, h5, h6, h7, h8]
                    show parseStrBody (escapeChar c ++ (escapeList cs ++ '"' :: rest)) = _
                    rw [hesc]
                    rw [parseStrBody.eq_def]
                    simp [h1, h2, h8, ih]

theorem skipWs_quote (rest : List Char) : skipWs ('"' :: rest) = '"' :: rest := by
  rw [skipWs.eq_def]
  simp

theorem parseVal_succ_quote (fuel : Nat) (rest : List Char) :
    parseVal (fuel + 1) ('"' :: rest) =
      (parseStrBody rest).map (fun p => (JVal.str (String.mk p.1), p.2)) := by
  rw [parseVal.eq_def]
  simp [skipWs_quote]

/-- JSON.parse inverts JSON.stringify on string values. -/
theorem parseJson_stringify_str (t : String) :
    parseJson (stringifyJson (.str t)) = some (.str t) := by
  have htl : (stringifyJson (.str t)).toList = '"' :: (escapeList t.toList ++ ['"']) := rfl
  show parseJsonChars (stringifyJson (.str t)).toList = some (.str t)
  rw [htl]
  unfold parseJsonChars
  have hfuel : 2 * ('"' :: (escapeList t.toList ++ ['"'])).length + 2 =
      (2 * ('"' :: (escapeList t.toList ++ ['"'])).length + 1) + 1 := rfl
  rw [hfuel, parseVal_succ_quote]
  have hbody : parseStrBody (escapeList t.toList ++ ['"']) = some (t.toList, []) := by
    have h := parseStrBody_escape t.toList []
    simpa using h
  rw [hbody]
  simp [string_mk_toList, skipWs]

theorem stringifyJson_str_ne_empty (t : String) : stringifyJson (.str t) ≠ "" := by
  intro h
  have h2 : ('"' :: (escapeList t.toList ++ ['"'])) = ([] : List Char) := congrArg String.data h
  simp at h2

theorem storeGet_set_self (st : Store) (key v : String) :
    storeGet (storeSet st key v) key = some v := by
  induction st with
  | nil => simp [storeSet, storeGet]
  | cons p st ih =>
    by_cases h : p.1 = key
    · simp [storeSet, storeGet, h]
    · simp [storeSet, storeGet, h, ih]

theorem storeGet_set_other (st : Store) (key key2 v : String) (h : key ≠ key2) :
    storeGet (storeSet st key v) key2 = storeGet st key2 := by
  induction st with
  | nil => simp [storeSet, storeGet, h]
  | cons p st ih =>
    by_cases hp : p.1 = key
    · simp [storeSet, storeGet, hp, h]
    · simp [storeSet, storeGet, hp, ih]

theorem storeGet_of_forall_ne (st : Store) (key : String)
    (h : ∀ p ∈ st, p.1 ≠ key) : storeGet st key = none := by
  induction st with
  | nil => rfl
  | cons p st ih =>
    have hp : p.1 ≠ key := h p (List.mem_cons_self p st)
    simp [storeGet, hp]
    exact ih (fun q hq => h q (List.mem_cons_of_mem p hq))

theorem getSession_set_self (st : Store) (key : String) (v : JVal)
    (hparse : parseJson (stringifyJson v) = some v)
    (hne : stringifyJson v ≠ "") :
    getSession (setSession st key v) key = .ok v := by
  simp [getSession, setSession, storeGet_set_self, hparse, hne]

theorem getSession_set_other (st : Store) (key key2 : String) (v : JVal) (h : key ≠ key2) :
    getSession (setSession st key v) key2 = getSession st key2 := by
  simp [getSession, setSession, storeGet_set_other st key key2 _ h]

theorem jsGetProp_eq_ok (v : JVal) (key : String) (hne : v ≠ JVal.null) :
    jsGetProp v key = .ok (jsField v key) := by
  cases v <;> simp [jsGetProp] at hne ⊢

theorem ne_null_of_jsField_some (v : JVal) (key : String) (x : JVal)
    (h : jsField v key = some x) : v ≠ JVal.null := by
  intro hn
  rw [hn] at h
  simp [jsField] at h

theorem fetchCore_script_fst (b : Browser) (net : NetResult) :
    (fetchCore_script b net).1 = b := by
  rcases net with m | resp
  · rfl
  · rcases hp : parseJson resp.body with _ | data
    · simp [fetchCore_script, hp]
    · by_cases hok : responseOk resp
      · simp [fetchCore_script, hp, hok]
      · rcases hg : jsGetProp data "detail" with e | det <;>
          simp [fetchCore_script, hp, hok, hg]

theorem validFrac_of_numTailInt (r : List Char) (h : numTailInt r = true) :
    validFrac r = some r := by
  rcases r with _ | ⟨c, t⟩
  · rfl
  · simp [numTailInt] at h
    simp [validFrac, h.1.1]

theorem validExp_of_numTailInt (r : List Char) (h : numTailInt r = true) :
    validExp r = some r := by
  rcases r with _ | ⟨c, t⟩
  · rfl
  · simp [numTailInt] at h
    simp [validExp, h.1.2, h.2]

theorem parseNum_sound (cs : List Char) (v : JVal) (r : List Char)
    (h : parseNum cs = some (v, r)) : validNum cs = some r := by
  have main : ∀ (cs1 : List Char) (neg : Bool),
      (match cs1 with
       | [] => none
       | c :: rest =>
         if !isDigitCh c then none
         else if c = '0' && headDigit rest then none
         else
           let (n, r0) := takeDigits cs1 0
           if numTailInt r0 then
             some ((JVal.num (if neg then -(n : Int) else (n : Int)), r0) : JVal × List Char)
           else none) = some (v, r) →
      (match cs1 with
       | [] => none
       | c :: rest =>
         if !isDigitCh c then none
         else if c = '0' && headDigit rest then none
         else
           match validFrac (takeDigits cs1 0).2 with
           | none => none
           | some r2 => validExp r2) = some r := by
    intro cs1 neg hm
    rcases cs1 with _ | ⟨c, rest⟩
    · simp at hm
    · by_cases hd : isDigitCh c
      · by_cases hz : (c = '0' && headDigit rest) = true
        · simp [hd, hz] at hm
        · rcases htd : takeDigits (c :: rest) 0 with ⟨n, r0⟩
          simp only [hd, Bool.not_true, Bool.false_eq_true, if_false,
            Bool.not_eq_true] at hm ⊢
          rw [Bool.not_eq_true] at hz
          simp only [hz, Bool.false_eq_true, if_false, htd] at hm ⊢
          by_cases ht : numTailInt r0 = true
          · simp only [ht, if_true] at hm
            simp only [Option.some.injEq, Prod.mk.injEq] at hm
            obtain ⟨hv, hr⟩ := hm
            subst hr
            simp [validFrac_of_numTailInt r0 ht, validExp_of_numTailInt r0 ht]
          · simp [ht] at hm
      · simp [hd] at hm
  unfold parseNum at h
  unfold validNum
  exact main (if headIs '-' cs then cs.tail else cs) (headIs '-' cs) h

theorem parse_sound (fuel : Nat) :
    (∀ cs v r, parseVal fuel cs = some (v, r) → validVal fuel cs = some r) ∧
    (∀ cs es r, parseElems fuel cs = some (es, r) → validElems fuel cs = some r) ∧
    (∀ cs fs r, parseMembers fuel cs = some (fs, r) → validMembers fuel cs = some r) := by
  induction fuel with
  | zero =>
    refine ⟨?_, ?_, ?_⟩ <;> intro cs x r h <;>
      simp [parseVal, parseElems, parseMembers] at h
  | succ fuel ih =>
    obtain ⟨ihv, ihe, ihm⟩ := ih
    refine ⟨?_, ?_, ?_⟩
    · intro cs v r h
      simp only [parseVal] at h
      simp only [validVal]
      rcases hws : skipWs cs with _ | ⟨c, rest⟩
      · simp only [hws] at h
        simp at h
      · simp only [hws] at h ⊢
        by_cases h1 : c = 'n'
        · rcases hsl : stripLit ['u', 'l', 'l'] rest with _ | r1
          · simp [h1, hsl] at h
          · simp [h1, hsl] at h ⊢
            exact h.2
        · by_cases h2 : c = 't'
          · rcases hsl : stripLit ['r', 'u', 'e'] rest with _ | r1
            · simp [h1, h2, hsl] at h
            · simp [h1, h2, hsl] at h ⊢
              exact h.2
          · by_cases h3 : c = 'f'
            · rcases hsl : stripLit ['a', 'l', 's', 'e'] rest with _ | r1
              · simp [h1, h2, h3, hsl] at h
              · simp [h1, h2, h3, hsl] at h ⊢
                exact h.2
            · by_cases h4 : c = '"'
              · rcases hps : parseStrBody rest with _ | ⟨s1, r1⟩
                · simp [h1, h2, h3, h4, hps] at h
                · simp [h1, h2, h3, h4, hps] at h ⊢
                  exact h.2
              · by_cases h5 : c = '['
                · by_cases hb : headIs ']' (skipWs rest) = true
                  · simp [h1, h2, h3, h4, h5, hb] at h ⊢
                    exact h.2
                  · rcases hpe : parseElems fuel (skipWs rest) with _ | ⟨es1, r1⟩
                    · simp [h1, h2, h3, h4, h5, hb, hpe] at h
                    · simp [h1, h2, h3, h4, h5, hb, hpe,
                        ihe (skipWs rest) es1 r1 hpe] at h ⊢
                      exact h.2
                · by_cases h6 : c = '{'
                  · by_cases hb : headIs '}' (skipWs rest) = true
                    · simp [h1, h2, h3, h4, h5, h6, hb] at h ⊢
                      exact h.2
                    · rcases hpm : parseMembers fuel (skipWs rest) with _ | ⟨fs1, r1⟩
                      · simp [h1, h2, h3, h4, h5, h6, hb, hpm] at h
                      · simp [h1, h2, h3, h4, h5, h6, hb, hpm,
                          ihm (skipWs rest) fs1 r1 hpm] at h ⊢
                        exact h.2
                  · simp only [h1, h2, h3, h4, h5, h6, if_false] at h ⊢
                    exact parseNum_sound _ _ _ h
    · intro cs es r h
      simp only [parseElems] at h
      simp only [validElems]
      rcases hpv : parseVal fuel cs with _ | ⟨v1, r1⟩
      · simp only [hpv] at h
        simp at h
      · simp only [hpv] at h
        simp only [ihv cs v1 r1 hpv]
        by_cases hcomma : headIs ',' (skipWs r1) = true
        · rcases hpe : parseElems fuel ((skipWs r1).tail) with _ | ⟨es2, r2⟩
          · simp [hcomma, hpe] at h
          · simp [hcomma, hpe, ihe ((skipWs r1).tail) es2 r2 hpe] at h ⊢
            exact h.2
        · by_cases hket : headIs ']' (skipWs r1) = true
          · simp [hcomma, hket] at h ⊢
            exact h.2
          · simp [hcomma, hket] at h
    · intro cs fs r h
      simp only [parseMembers] at h
      simp only [validMembers]
      by_cases hq : headIs '"' (skipWs cs) = true
      · simp only [hq, if_true] at h ⊢
        rcases hps : parseStrBody ((skipWs cs).tail) with _ | ⟨k1, r2⟩
        · simp only [hps] at h
          simp at h
        · simp only [hps] at h ⊢
          by_cases hcolon : headIs ':' (skipWs r2) = true
          · rcases hpv : parseVal fuel ((skipWs r2).tail) with _ | ⟨v1, r4⟩
            · simp [hcolon, hpv] at h
            · simp only [hcolon, if_true, hpv] at h
              simp only [hcolon, if_true, ihv ((skipWs r2).tail) v1 r4 hpv]
              by_cases hcomma : headIs ',' (skipWs r4) = true
              · rcases hpm : parseMembers fuel ((skipWs r4).tail) with _ | ⟨fs2, r5⟩
                · simp [hcomma, hpm] at h
                · simp [hcomma, hpm, ihm ((skipWs r4).tail) fs2 r5 hpm] at h ⊢
                  exact h.2
              · by_cases hbrace : headIs '}' (skipWs r4) = true
                · simp [hcomma, hbrace] at h ⊢
                  exact h.2
                · simp [hcomma, hbrace] at h
          · simp [hcolon] at h
      · simp [hq] at h

theorem parseJson_sound (s : String) (v : JVal) (h : parseJson s = some v) :
    jsonTextValid s = true := by
  unfold parseJson parseJsonChars at h
  unfold jsonTextValid
  rcases hpv : parseVal (2 * s.toList.length + 2) s.toList with _ | ⟨v1, r1⟩
  · simp only [hpv] at h
    simp at h
  · simp only [hpv] at h
    simp only [(parse_sound (2 * s.toList.length + 2)).1 s.toList v1 r1 hpv]
    rcases hws : skipWs r1 with _ | ⟨c, t⟩
    · simp [hws]
    · simp only [hws] at h
      simp at h

theorem parseJson_none_of_invalid (s : String) (h : jsonTextValid s = false) :
    parseJson s = none := by
  cases hp : parseJson s with
  | none => rfl
  | some v => exact absurd (parseJson_sound s v hp) (by simp [h])

/-- C7: after any sequence of setSession writes followed by clearSession,
getSession returns null for every key: the clear removes all keys at once. -/
theorem clearSession_get_null (ops : List (String × JVal)) (st : Store) (key : String) :
    getSession (clearSession (ops.foldl (fun s p => setSession s p.1 p.2) st)) key =
      .ok JVal.null := rfl

/-- C4 counterexample: a stored value that is not valid JSON makes getSession
throw a SyntaxError instead of returning null as the claim states. -/
theorem getSession_corrupt_throws :
    getSession [("k", "\x7b")] "k" = .error jsonParseError ∧
    getSession [("k", "\x7b")] "k" ≠ .ok JVal.null := by
  constructor
  · rfl
  · decide

/-- C4 (amended): getSession returns the deserialized stored value, and null
when the key is absent or the stored string is empty; a non-empty stored
string that is not a valid JSON text (under the full JSON grammar) raises
the JSON.parse SyntaxError rather than being treated as absent. -/
theorem getSession_spec :
    (∀ st key, storeGet st key = none → getSession st key = .ok JVal.null) ∧
    (∀ st key, storeGet st key = some "" → getSession st key = .ok JVal.null) ∧
    (∀ st key s v, storeGet st key = some s → s ≠ "" → parseJson s = some v →
      getSession st key = .ok v) ∧
    (∀ st key s, storeGet st key = some s → s ≠ "" → jsonTextValid s = false →
      getSession st key = .error jsonParseError) := by
  refine ⟨?_, ?_, ?_, ?_⟩
  · intro st key h
    simp [getSession, h]
  · intro st key h
    simp [getSession, h]
  · intro st key s v h hs hp
    simp [getSession, h, hs, hp]
  · intro st key s h hs hbad
    simp [getSession, h, hs, parseJson_none_of_invalid s hbad]

theorem getSession_spec_witness :
    getSession [] "accessToken" = .ok JVal.null ∧
    getSession [("k", "\x7b\x7d\x7d")] "k" = .error jsonParseError :=
  ⟨getSession_spec.1 [] "accessToken" rfl,
   getSession_spec.2.2.2 [("k", "\x7b\x7d\x7d")] "k" "\x7b\x7d\x7d" rfl (by decide) rfl⟩

/-- C8: with no session keys present (Anonymous), protectRoute allows the
login route, and redirects the pin route and the dashboard (protected)
route to the login route "/". -/
theorem protectRoute_anonymous (b : Browser) (path : String)
    (hAuth : getSession b.store SESSION_KEY_AUTH = .ok JVal.null)
    (hPin : getSession b.store SESSION_KEY_PIN_VERIFIED = .ok JVal.null) :
    ((path = "/" || strIncludes path "index.html") = true →
      protectRoute b path = .ok b) ∧
    ((path = "/" || strIncludes path "index.html") = false →
      strIncludes path "/pin/" = true →
      protectRoute b path = .ok ⟨b.store, some "/"⟩) ∧
    ((path = "/" || strIncludes path "index.html") = false →
      strIncludes path "/pin/" = false →
      strIncludes path "/dashboard/" = true →
      protectRoute b path = .ok ⟨[], some "/"⟩) := by
  refine ⟨?_, ?_, ?_⟩
  · intro h1
    simp [protectRoute, hAuth, hPin, jsTruthy, h1]
  · intro h1 h2
    simp [protectRoute, hAuth, hPin, jsTruthy, h1, h2]
  · intro h1 h2 h3
    simp [protectRoute, hAuth, hPin, jsTruthy, h1, h2, h3, clearSession]

theorem protectRoute_anonymous_witness :
    protectRoute ⟨[], none⟩ "/" = .ok ⟨[], none⟩ ∧
    protectRoute ⟨[], none⟩ "/pin/" = .ok ⟨[], some "/"⟩ ∧
    protectRoute ⟨[], none⟩ "/dashboard/" = .ok ⟨[], some "/"⟩ :=
  ⟨(protectRoute_anonymous ⟨[], none⟩ "/" rfl rfl).1 (by decide),
   (protectRoute_anonymous ⟨[], none⟩ "/pin/" rfl rfl).2.1 (by decide) (by decide),
   (protectRoute_anonymous ⟨[], none⟩ "/dashboard/" rfl rfl).2.2
     (by decide) (by decide) (by decide)⟩

/-- C2 counterexample: with isAuthenticated set and isPinVerified unset, the
guard on the dashboard route clears the session and redirects to the login
route "/", not to the pin-verify route "/pin/" as the claim states. -/
theorem protectRoute_unverified_dashboard_counterexample :
    protectRoute ⟨[(SESSION_KEY_AUTH, "true")], none⟩ "/dashboard/" =
      .ok ⟨[], some "/"⟩ ∧
    some "/" ≠ some "/pin/" := by
  constructor
  · rfl
  · decide

/-- C2 (amended): with isAuthenticated truthy and isPinVerified falsy, the
guard on a dashboard (protected) path unconditionally clears the session and
redirects to the login route "/" (not to the pin-verify route). -/
theorem protectRoute_unverified_dashboard (b : Browser) (path : String) (v w : JVal)
    (hAuth : getSession b.store SESSION_KEY_AUTH = .ok v) (hv : jsTruthy v = true)
    (hPin : getSession b.store SESSION_KEY_PIN_VERIFIED = .ok w) (hw : jsTruthy w = false)
    (hlogin : (path = "/" || strIncludes path "index.html") = false)
    (hpin : strIncludes path "/pin/" = false)
    (hdash : strIncludes path "/dashboard/" = true) :
    protectRoute b path = .ok ⟨[], some "/"⟩ := by
  simp [protectRoute, hAuth, hPin, hv, hw, hlogin, hpin, hdash, clearSession]

theorem protectRoute_unverified_dashboard_witness :
    protectRoute ⟨[(SESSION_KEY_AUTH, "true"), (SESSION_KEY_TOKEN, "\"t1\"")], none⟩
      "/dashboard/index" = .ok ⟨[], some "/"⟩ :=
  protectRoute_unverified_dashboard _ "/dashboard/index" (.bool true) JVal.null
    rfl rfl rfl rfl (by decide) (by decide) (by decide)

/-- C9: the part_000 admin gate calls getSession with no key (coerced to the
key "undefined"), which no store written by the login and PIN flow contains,
so for every such session the gate redirects to /login.html. -/
theorem adminGate_redirects_flow_sessions (b : Browser)
    (h : ∀ p ∈ b.store, p.1 = SESSION_KEY_AUTH ∨ p.1 = SESSION_KEY_TOKEN ∨
      p.1 = SESSION_KEY_PIN_VERIFIED ∨ p.1 = SESSION_KEY_USER_DATA) :
    adminGate b = .ok { b with location := some "/login.html" } := by
  have hnone : storeGet b.store "undefined" = none := by
    refine storeGet_of_forall_ne _ _ (fun p hp => ?_)
    rcases h p hp with h1 | h1 | h1 | h1 <;> rw [h1] <;> decide
  simp [adminGate, getSession, hnone, jsTruthy]

theorem adminGate_redirects_flow_sessions_witness :
    adminGate ⟨[(SESSION_KEY_AUTH, "true"), (SESSION_KEY_TOKEN, "\"tok1\""),
      (SESSION_KEY_PIN_VERIFIED, "true"),
      (SESSION_KEY_USER_DATA, "\x7b\"id\":1,\"is_admin\":true\x7d")], none⟩ =
    .ok ⟨[(SESSION_KEY_AUTH, "true"), (SESSION_KEY_TOKEN, "\"tok1\""),
      (SESSION_KEY_PIN_VERIFIED, "true"),
      (SESSION_KEY_USER_DATA, "\x7b\"id\":1,\"is_admin\":true\x7d")], some "/login.html"⟩ :=
  adminGate_redirects_flow_sessions _ (by decide)

/-- C1 counterexample: in the script.js variant of fetchApi a 401 response
takes the generic error path: the session store is left intact
(isAuthenticated still true, not null), no redirect is assigned, and the
error is built from the response detail rather than being a distinguished
session-expired error. -/
theorem fetchApi_script_401_counterexample :
    fetchApi_script ⟨[(SESSION_KEY_AUTH, "true"), (SESSION_KEY_TOKEN, "\"tok\"")], none⟩
      true (.ok ⟨401, "Unauthorized", "\x7b\"detail\":\"Not authenticated\"\x7d"⟩) =
    (⟨[(SESSION_KEY_AUTH, "true"), (SESSION_KEY_TOKEN, "\"tok\"")], none⟩,
      .error (.error "Not authenticated")) ∧
    getSession [(SESSION_KEY_AUTH, "true"), (SESSION_KEY_TOKEN, "\"tok\"")]
      SESSION_KEY_AUTH = .ok (.bool true) := by
  constructor
  · rfl
  · rfl

/-- C1 (amended): in the part_001 variant of fetchApi, every call that
reaches the network (requiresAuth off, or a truthy stored token) and
receives a 401 clears the whole session store, redirects to the login route
"/", and fails with the distinguished session-expired error; in particular
getSession of isAuthenticated afterwards yields null. -/
theorem fetchApi_part001_401_clears (b : Browser) (requiresAuth : Bool) (resp : HttpResponse)
    (h401 : resp.status = 401)
    (hpre : requiresAuth = false ∨
      ∃ t, getSession b.store SESSION_KEY_TOKEN = .ok t ∧ jsTruthy t = true) :
    fetchApi_part001 b requiresAuth (.ok resp) =
      (⟨[], some "/"⟩, .error (.error "Session expired or unauthorized.")) ∧
    getSession ([] : Store) SESSION_KEY_AUTH = .ok JVal.null := by
  constructor
  · rcases hpre with h | ⟨t, ht, htr⟩
    · subst h
      simp [fetchApi_part001, fetchAuthPre, fetchCore_part001, h401, clearSession]
    · simp [fetchApi_part001, fetchAuthPre, ht, htr, fetchCore_part001, h401, clearSession]
  · rfl

theorem fetchApi_part001_401_clears_witness :
    fetchApi_part001 ⟨[(SESSION_KEY_AUTH, "true")], none⟩ false
      (.ok ⟨401, "Unauthorized", "x"⟩) =
      (⟨[], some "/"⟩, .error (.error "Session expired or unauthorized.")) ∧
    getSession ([] : Store) SESSION_KEY_AUTH = .ok JVal.null :=
  fetchApi_part001_401_clears ⟨[(SESSION_KEY_AUTH, "true")], none⟩ false
    ⟨401, "Unauthorized", "x"⟩ rfl (Or.inl rfl)

/-- C3 counterexample: in the script.js variant, a non-2xx response whose
JSON body lacks a detail field fails with the fixed message "Something went
wrong", not with the HTTP status text as the claim states. -/
theorem fetchApi_script_fallback_counterexample :
    fetchApi_script ⟨[], none⟩ false
      (.ok ⟨500, "Internal Server Error", "\x7b\x7d"⟩) =
    (⟨[], none⟩, .error (.error "Something went wrong")) ∧
    "Something went wrong" ≠ "Internal Server Error" := by
  constructor
  · rfl
  · decide

/-- C3 (amended): for a non-2xx, non-401 response whose body parses as
JSON: both fetchApi variants fail with an error carrying the server's
(non-empty, string) detail; when the body is a non-null value lacking a
detail field, the part_001 variant falls back to the HTTP status text (when
non-empty) while the script.js variant falls back to the fixed message
"Something went wrong"; and when the body is the JSON literal null, both
variants fail with the TypeError from reading detail off null. -/
theorem fetchApi_error_detail (b : Browser) (resp : HttpResponse) (data : JVal)
    (h401 : resp.status ≠ 401) (hok : responseOk resp = false)
    (hparse : parseJson resp.body = some data) :
    (∀ s, jsField data "detail" = some (JVal.str s) → s ≠ "" →
      fetchApi_part001 b false (.ok resp) = (b, .error (.error s)) ∧
      fetchApi_script b false (.ok resp) = (b, .error (.error s))) ∧
    (data ≠ JVal.null → jsField data "detail" = none → resp.statusText ≠ "" →
      fetchApi_part001 b false (.ok resp) = (b, .error (.error resp.statusText))) ∧
    (data ≠ JVal.null → jsField data "detail" = none →
      fetchApi_script b false (.ok resp) = (b, .error (.error "Something went wrong"))) ∧
    (data = JVal.null →
      fetchApi_part001 b false (.ok resp) = (b, .error (typeErrorNullRead "detail")) ∧
      fetchApi_script b false (.ok resp) = (b, .error (typeErrorNullRead "detail"))) := by
  refine ⟨?_, ?_, ?_, ?_⟩
  · intro s hdet hs
    have hprop : jsGetProp data "detail" = .ok (some (JVal.str s)) := by
      rw [jsGetProp_eq_ok data "detail" (ne_null_of_jsField_some data "detail" _ hdet), hdet]
    constructor
    · simp [fetchApi_part001, fetchAuthPre, fetchCore_part001, h401, hparse, hok, hprop,
        jsTruthy, hs]
    · simp [fetchApi_script, fetchAuthPre, fetchCore_script, hparse, hok, detailOrElse,
        hprop, jsTruthy, hs, jsToString]
  · intro hnn hdet hst
    have hprop : jsGetProp data "detail" = .ok none := by
      rw [jsGetProp_eq_ok data "detail" hnn, hdet]
    simp [fetchApi_part001, fetchAuthPre, fetchCore_part001, h401, hparse, hok, hprop, hst]
  · intro hnn hdet
    have hprop : jsGetProp data "detail" = .ok none := by
      rw [jsGetProp_eq_ok data "detail" hnn, hdet]
    simp [fetchApi_script, fetchAuthPre, fetchCore_script, hparse, hok, detailOrElse, hprop]
  · intro hnull
    subst hnull
    constructor
    · simp [fetchApi_part001, fetchAuthPre, fetchCore_part001, h401, hparse, hok, jsGetProp]
    · simp [fetchApi_script, fetchAuthPre, fetchCore_script, hparse, hok, jsGetProp]

theorem fetchApi_error_detail_witness :
    fetchApi_part001 ⟨[], none⟩ false
      (.ok ⟨403, "Forbidden", "\x7b\"detail\":\"No permission\"\x7d"⟩) =
      (⟨[], none⟩, .error (.error "No permission")) ∧
    fetchApi_part001 ⟨[], none⟩ false (.ok ⟨500, "Internal Server Error", "\x7b\x7d"⟩) =
      (⟨[], none⟩, .error (.error "Internal Server Error")) ∧
    fetchApi_part001 ⟨[], none⟩ false (.ok ⟨500, "Internal Server Error", "null"⟩) =
      (⟨[], none⟩, .error (typeErrorNullRead "detail")) :=
  ⟨((fetchApi_error_detail ⟨[], none⟩ ⟨403, "Forbidden", "\x7b\"detail\":\"No permission\"\x7d"⟩
      (.obj (.cons "detail" (.str "No permission") .nil))
      (by decide) (by decide) rfl).1 "No permission" rfl (by decide)).1,
   (fetchApi_error_detail ⟨[], none⟩ ⟨500, "Internal Server Error", "\x7b\x7d"⟩
      (.obj .nil) (by decide) (by decide) rfl).2.1 (by decide) rfl (by decide),
   ((fetchApi_error_detail ⟨[], none⟩ ⟨500, "Internal Server Error", "null"⟩
      JVal.null (by decide) (by decide) rfl).2.2.2 rfl).1⟩

/-- C10: both fetchApi variants parse the response body before checking the
HTTP status, so a response whose body is not a valid JSON text (under the
full JSON grammar) fails with the JSON.parse SyntaxError (not an ApiError
built from the detail or status text) at every status in the script.js
variant, and at every status other than 401 in the part_001 variant, whose
401 branch runs before parsing. -/
theorem fetchApi_unparsable_body (b : Browser) (resp : HttpResponse)
    (hbad : jsonTextValid resp.body = false) :
    fetchApi_script b false (.ok resp) = (b, .error jsonParseError) ∧
    (resp.status ≠ 401 → fetchApi_part001 b false (.ok resp) = (b, .error jsonParseError)) ∧
    (resp.status = 401 → fetchApi_part001 b false (.ok resp) =
      (⟨[], some "/"⟩, .error (.error "Session expired or unauthorized."))) := by
  have hp : parseJson resp.body = none := parseJson_none_of_invalid _ hbad
  refine ⟨?_, ?_, ?_⟩
  · simp [fetchApi_script, fetchAuthPre, fetchCore_script, hp]
  · intro h401
    simp [fetchApi_part001, fetchAuthPre, fetchCore_part001, h401, hp]
  · intro h401
    simp [fetchApi_part001, fetchAuthPre, fetchCore_part001, h401, clearSession]

theorem fetchApi_unparsable_body_witness :
    fetchApi_script ⟨[], none⟩ false (.ok ⟨500, "Internal Server Error", "oops"⟩) =
      (⟨[], none⟩, .error jsonParseError) ∧
    fetchApi_part001 ⟨[], none⟩ false (.ok ⟨500, "Internal Server Error", "oops"⟩) =
      (⟨[], none⟩, .error jsonParseError) :=
  ⟨(fetchApi_unparsable_body ⟨[], none⟩ ⟨500, "Internal Server Error", "oops"⟩ rfl).1,
   (fetchApi_unparsable_body ⟨[], none⟩ ⟨500, "Internal Server Error", "oops"⟩ rfl).2.1
     (by decide)⟩

/-- C5: when the login call succeeds with a payload carrying an access token
and a user object, the login handler sets isAuthenticated to true, stores
the bearer token (so getSession of accessToken is the token, in particular
non-null) and the user payload, and redirects to the PIN step. -/
theorem handleLoginSubmit_success (b : Browser) (view : LoginView) (resp : HttpResponse)
    (data user : JVal) (tok : String)
    (hok : responseOk resp = true)
    (hparse : parseJson resp.body = some data)
    (htok : jsField data "access_token" = some (JVal.str tok))
    (huser : jsField data "user" = some user) :
    getSession (handleLoginSubmit b view (.ok resp)).1.store SESSION_KEY_AUTH =
      .ok (.bool true) ∧
    getSession (handleLoginSubmit b view (.ok resp)).1.store SESSION_KEY_TOKEN =
      .ok (.str tok) ∧
    getSession (handleLoginSubmit b view (.ok resp)).1.store SESSION_KEY_TOKEN ≠
      .ok JVal.null ∧
    storeGet (handleLoginSubmit b view (.ok resp)).1.store SESSION_KEY_USER_DATA =
      some (stringifyJson user) ∧
    (handleLoginSubmit b view (.ok resp)).1.location = some "/pin/" := by
  have hfa : fetchApi_script b false (.ok resp) = (b, .ok data) := by
    simp [fetchApi_script, fetchAuthPre, fetchCore_script, hparse, hok]
  have hnn : data ≠ JVal.null := ne_null_of_jsField_some data "access_token" _ htok
  have hptok : jsGetProp data "access_token" = .ok (some (JVal.str tok)) := by
    rw [jsGetProp_eq_ok data "access_token" hnn, htok]
  have hpuser : jsGetProp data "user" = .ok (some user) := by
    rw [jsGetProp_eq_ok data "user" hnn, huser]
  have hout : handleLoginSubmit b view (.ok resp) =
      (⟨setSessionArg (setSessionArg (setSession b.store SESSION_KEY_AUTH (.bool true))
          SESSION_KEY_TOKEN (some (JVal.str tok)))
          SESSION_KEY_USER_DATA (some user), some "/pin/"⟩,
        ⟨view.errorText, true⟩) := by
    simp [handleLoginSubmit, hfa, hptok, hpuser]
  rw [hout]
  have hAuthToken : SESSION_KEY_TOKEN ≠ SESSION_KEY_AUTH := by decide
  have hTokUser : SESSION_KEY_USER_DATA ≠ SESSION_KEY_TOKEN := by decide
  have hAuthUser : SESSION_KEY_USER_DATA ≠ SESSION_KEY_AUTH := by decide
  refine ⟨?_, ?_, ?_, ?_, rfl⟩
  · show getSession (setSession (setSession (setSession b.store SESSION_KEY_AUTH (.bool true))
        SESSION_KEY_TOKEN (.str tok)) SESSION_KEY_USER_DATA user) SESSION_KEY_AUTH = _
    rw [getSession_set_other _ _ _ _ hAuthUser, getSession_set_other _ _ _ _ hAuthToken,
      getSession_set_self b.store SESSION_KEY_AUTH (.bool true) rfl (by decide)]
  · show getSession (setSession (setSession (setSession b.store SESSION_KEY_AUTH (.bool true))
        SESSION_KEY_TOKEN (.str tok)) SESSION_KEY_USER_DATA user) SESSION_KEY_TOKEN = _
    rw [getSession_set_other _ _ _ _ hTokUser,
      getSession_set_self _ _ _ (parseJson_stringify_str tok) (stringifyJson_str_ne_empty tok)]
  · show getSession (setSession (setSession (setSession b.store SESSION_KEY_AUTH (.bool true))
        SESSION_KEY_TOKEN (.str tok)) SESSION_KEY_USER_DATA user) SESSION_KEY_TOKEN ≠ _
    rw [getSession_set_other _ _ _ _ hTokUser,
      getSession_set_self _ _ _ (parseJson_stringify_str tok) (stringifyJson_str_ne_empty tok)]
    simp
  · show storeGet (setSession (setSession (setSession b.store SESSION_KEY_AUTH (.bool true))
        SESSION_KEY_TOKEN (.str tok)) SESSION_KEY_USER_DATA user) SESSION_KEY_USER_DATA = _
    exact storeGet_set_self _ _ _

theorem handleLoginSubmit_success_witness :
    getSession (handleLoginSubmit ⟨[], none⟩ ⟨"", true⟩
        (.ok ⟨200, "OK", "\x7b\"access_token\":\"tok1\",\"user\":\x7b\"id\":1\x7d\x7d"⟩)).1.store
      SESSION_KEY_AUTH = .ok (.bool true) ∧
    getSession (handleLoginSubmit ⟨[], none⟩ ⟨"", true⟩
        (.ok ⟨200, "OK", "\x7b\"access_token\":\"tok1\",\"user\":\x7b\"id\":1\x7d\x7d"⟩)).1.store
      SESSION_KEY_TOKEN = .ok (.str "tok1") :=
  ⟨(handleLoginSubmit_success ⟨[], none⟩ ⟨"", true⟩
      ⟨200, "OK", "\x7b\"access_token\":\"tok1\",\"user\":\x7b\"id\":1\x7d\x7d"⟩
      (.obj (.cons "access_token" (.str "tok1")
        (.cons "user" (.obj (.cons "id" (.num 1) .nil)) .nil)))
      (.obj (.cons "id" (.num 1) .nil)) "tok1" (by decide) rfl rfl rfl).1,
   (handleLoginSubmit_success ⟨[], none⟩ ⟨"", true⟩
      ⟨200, "OK", "\x7b\"access_token\":\"tok1\",\"user\":\x7b\"id\":1\x7d\x7d"⟩
      (.obj (.cons "access_token" (.str "tok1")
        (.cons "user" (.obj (.cons "id" (.num 1) .nil)) .nil)))
      (.obj (.cons "id" (.num 1) .nil)) "tok1" (by decide) rfl rfl rfl).2.1⟩

/-- C6: when the login call fails (throws), the login handler leaves the
browser state — session store and location — exactly as it was and only
sets the error message (the thrown message, or a generic fallback) and
unhides the error element. -/
theorem handleLoginSubmit_failure (b : Browser) (view : LoginView) (net : NetResult)
    (e : JsError) (herr : (fetchApi_script b false net).2 = .error e) :
    handleLoginSubmit b view net =
      (b, ⟨messageOrElse e "Login failed. Please try again.", false⟩) := by
  have hfst : (fetchApi_script b false net).1 = b := fetchCore_script_fst b net
  have hfa : fetchApi_script b false net = (b, .error e) := by
    have h2 : fetchApi_script b false net =
        ((fetchApi_script b false net).1, (fetchApi_script b false net).2) := rfl
    rw [h2, hfst, herr]
  simp [handleLoginSubmit, hfa]

theorem handleLoginSubmit_failure_witness :
    handleLoginSubmit ⟨[], none⟩ ⟨"", true⟩
      (.ok ⟨401, "Unauthorized", "\x7b\"detail\":\"Invalid credentials\"\x7d"⟩) =
    (⟨[], none⟩, ⟨"Invalid credentials", false⟩) :=
  handleLoginSubmit_failure ⟨[], none⟩ ⟨"", true⟩
    (.ok ⟨401, "Unauthorized", "\x7b\"detail\":\"Invalid credentials\"\x7d"⟩)
    (.error "Invalid credentials") rfl
